import Mathlib

/-!
Shallow embedding of the two Ansible modules of this repository:
`src/vcenter_vrops_config.py` (vROPs appliance configurator) and
`src/os_projects.py` (OpenStack Keystone project reconciler).

The modules are thin state-reconciliation scripts around HTTP calls; the
embedding models the remote side (HTTP responses, the Keystone project
service) as explicit inputs, and translates each Python method into a Lean
function over those inputs.  Python's heterogeneous return values
(`None` / bool / int status codes) are modelled by `PyVal`; uncaught Python
exceptions are modelled by `Except`.
-/

namespace VropsConfig

/-- A Python value as returned by the vROPs client's methods: `None`,
a bool, or an int (an HTTP status code).  Mirrors the dynamic typing of
the `state` locals in `vcenter_vrops_config.py`. -/
inductive PyVal where
  | vnone : PyVal
  | vbool : Bool → PyVal
  | vint  : Nat → PyVal
deriving DecidableEq, Repr

/-- Python truthiness of a `PyVal` (`None` and `0` are falsy). -/
def PyVal.truthy : PyVal → Bool
  | .vnone => false
  | .vbool b => b
  | .vint n => n != 0

/-- Python truthiness of an `Option Nat` (a status code or `None`). -/
def pyTruthyOptNat : Option Nat → Bool
  | none => false
  | some n => n != 0

/-- An HTTP response as seen by `requests`: a status code, and the decoded
JSON body (`none` when `resp.json()` raises, i.e. the body is not JSON).
`α` is the shape of the JSON content of the particular endpoint. -/
structure PyResponse (α : Type) where
  status_code : Nat
  json : Option α
deriving DecidableEq, Repr

/-- The transport layer under one REST call: `none` models a raised
connection error (`requests.exceptions.ConnectionError`), `some resp`
a completed HTTP exchange. -/
abbrev Transport (α : Type) := Option (PyResponse α)

/-- `VropsRestClient.do_request` (vcenter_vrops_config.py:132-175).
On a connection error the local `resp` is still `None` and the function
returns `(None, None)`; on a completed exchange it returns the status code
and the JSON content.

NOTE (faithful to the source): the `status_codes` whitelist parameter is
consulted only inside `except (status_code not in status_codes)` clauses.
In Python an `except <expr>` clause is evaluated only when an exception was
raised inside the `try` block, so on any completed HTTP exchange the
whitelist is never checked: every status code, accepted or not, is returned
as a success pair, contradicting the docstring "returns None, None on
failure". -/
def do_request {α : Type} (status_codes : List Nat)
    (transport : Transport α) : Option Nat × Option α :=
  match transport with
  | none => (none, none)
  | some resp =>
      -- dead code in the source: `status_codes` is never consulted here
      let _ := status_codes
      (some resp.status_code, resp.json)

/-- `VropsRestClient.api_state` (vcenter_vrops_config.py:185-193): a GET of
the base URL with whitelist `[200]`; returns the `state` component
(the status code, or `None` on connection failure). -/
def api_state (transport : Transport Unit) : Option Nat :=
  (do_request [200] transport).1

/-- JSON content of the `security/adminpassword/initial` 500 response. -/
structure PwContent where
  error_message_key : String
deriving DecidableEq, Repr

/-- A Python exception escaping a method uncaught (e.g. `TypeError` from
subscripting `None`). -/
inductive PyCrash where
  | typeError : PyCrash
deriving DecidableEq, Repr

/-- `VropsRestClient.set_admin_init_password` (vcenter_vrops_config.py:280-297).
PUTs the initial admin password with whitelist `[200, 500]`.  On a 500
response the source sets
`state = (content['error_message_key'] != 'security.initial_password_already_set')`,
so the already-set key yields `False` and any other key yields `True`.
Subscripting a `None` content on the 500 path raises `TypeError`. -/
def set_admin_init_password (transport : Transport PwContent) :
    Except PyCrash PyVal :=
  match do_request [200, 500] transport with
  | (none, _) => .ok .vnone
  | (some sc, content) =>
      if sc = 500 then
        match content with
        | none => .error .typeError
        | some c =>
            .ok (.vbool (decide (c.error_message_key ≠ "security.initial_password_already_set")))
      else .ok (.vint sc)

/-- `set(xs) == set(ys)` on Python lists of strings: equality of the
underlying sets, i.e. mutual membership. -/
def pySetEq (xs ys : List String) : Bool :=
  xs.all (fun s => decide (s ∈ ys)) && ys.all (fun s => decide (s ∈ xs))

/-- `common_servers = list(set(ntp_servers) & set(current_ntp_servers))`
(vcenter_vrops_config.py:217).  Only membership in this list is ever used,
so the intersection is modelled as a filter (same members). -/
def common_servers (xs ys : List String) : List String :=
  xs.filter (fun s => decide (s ∈ ys))

/-- `VropsRestClient._update_ntp_servers` (vcenter_vrops_config.py:206-220).
`content['time_servers']` is passed as the list of current addresses.
Returns `[]` when desired and current coincide as sets, otherwise the
desired servers outside `common_servers` (i.e. outside the current list). -/
def _update_ntp_servers (ntp_servers current_ntp_servers : List String) : List String :=
  if pySetEq ntp_servers current_ntp_servers then []
  else ntp_servers.filter
    (fun s => decide (s ∉ common_servers ntp_servers current_ntp_servers))

/-- Core of `VropsRestClient.ntp_state` (vcenter_vrops_config.py:222-248)
after the GET succeeded with content `current` (the current time-server
addresses): with no current servers it returns `(False, ntp_servers)`;
otherwise `(update list is empty, update list)`. -/
def ntp_state_core (ntp_servers current : List String) : Bool × List String :=
  if current = [] then (false, ntp_servers)
  else
    let ntp_list := _update_ntp_servers ntp_servers current
    (decide (ntp_list = []), ntp_list)

/-- `VropsRestClient.configure_ntp` (vcenter_vrops_config.py:271-278),
instrumented to report the API write: `some l` when `set_ntp l` is called
(an HTTP POST of the list `l`), `none` when no write happens. -/
def configure_ntp_write (ntp_servers current : List String) : Option (List String) :=
  if (ntp_state_core ntp_servers current).1 then none
  else some (ntp_state_core ntp_servers current).2

/-- JSON content of `GET sysadmin/cluster/ntp`: the configured time servers
(modelled by their addresses, the only field `_update_ntp_servers` reads). -/
structure NtpContent where
  time_servers : List String
deriving DecidableEq, Repr

/-- JSON content of `GET deployment/slice/role/status`. -/
structure RoleContent where
  configurationRunning : Bool
deriving DecidableEq, Repr

/-- `VropsRestClient.ntp_state` (vcenter_vrops_config.py:222-248) with the
GET transport explicit.  When the GET fails or the body is not JSON,
`content` is `None` and `content['time_servers']` raises `TypeError`. -/
def ntp_state (ntp_servers : List String)
    (transport : Transport NtpContent) :
    Except PyCrash (Bool × List String) :=
  match do_request [200] transport with
  | (_, none) => .error .typeError
  | (_, some content) => .ok (ntp_state_core ntp_servers content.time_servers)

/-- `VropsRestClient.set_ntp` (vcenter_vrops_config.py:257-269): POST of the
ntp body with whitelist `[200]`; returns the `state` component. -/
def set_ntp (transport : Transport Unit) : Option Nat :=
  (do_request [200] transport).1

/-- `VropsRestClient.configure_ntp` (vcenter_vrops_config.py:271-278) with
both transports explicit: returns `ntp_state` when it is truthy, otherwise
the result of `set_ntp`. -/
def configure_ntp (ntp_servers : List String)
    (getT : Transport NtpContent)
    (postT : Transport Unit) : Except PyCrash PyVal :=
  match ntp_state ntp_servers getT with
  | .error e => .error e
  | .ok (st, _ntp_list) =>
      if st then .ok (.vbool st)
      else
        match set_ntp postT with
        | none => .ok .vnone
        | some n => .ok (.vint n)

/-- `VropsRestClient.admin_role_state` (vcenter_vrops_config.py:299-313):
GET with whitelist `[200]`; when the returned status code is truthy the
state is `content['configurationRunning']` (a `TypeError` if content is
`None`), otherwise the initial `False`. -/
def admin_role_state (transport : Transport RoleContent) :
    Except PyCrash Bool :=
  match do_request [200] transport with
  | (none, _) => .ok false
  | (some sc, content) =>
      if sc != 0 then
        match content with
        | none => .error .typeError
        | some c => .ok c.configurationRunning
      else .ok false

/-- `VropsRestClient.set_admin_role` (vcenter_vrops_config.py:323-334):
POST with whitelist `[209]` (the source comments it "should be 202"). -/
def set_admin_role (transport : Transport Unit) : Option Nat :=
  (do_request [209] transport).1

/-- `VropsRestClient.admin_role` (vcenter_vrops_config.py:336-342):
promote only when `admin_role_state` is falsy. -/
def admin_role (getT : Transport RoleContent)
    (postT : Transport Unit) : Except PyCrash PyVal :=
  match admin_role_state getT with
  | .error e => .error e
  | .ok st =>
      if st then .ok (.vbool false)
      else
        match set_admin_role postT with
        | none => .ok .vnone
        | some n => .ok (.vint n)

/-- The responses the appliance gives to the six endpoints one bootstrap
run can touch; `Except.error` is a connection-level failure. -/
structure VropsEnv where
  apiResp      : Transport Unit
  pwResp       : Transport PwContent
  ntpGetResp   : Transport NtpContent
  ntpPostResp  : Transport Unit
  roleGetResp  : Transport RoleContent
  rolePostResp : Transport Unit
deriving DecidableEq, Repr

/-- Outcome of a `VropsConfig` module run: a normal `module.exit_json`
(with its `changed`, `result`, `msg` fields), a `module.fail_json` abort,
or an uncaught Python exception. -/
inductive VOutcome where
  | exited (changed : Bool) (result : Option String) (msg : Option String)
  | failed (msg : String)
  | crashed
deriving DecidableEq, Repr

/-- `VropsConfig.state_create` (vcenter_vrops_config.py:414-440): check the
API, then set the admin password, configure NTP and promote the admin role
in order; the locals `changed`/`result` are never reassigned, so a run that
reaches the end returns `(False, None, "STATE CREATE")` whatever the
intermediate calls returned. -/
def state_create (ntp_servers : List String) (env : VropsEnv) : VOutcome :=
  if pyTruthyOptNat (api_state env.apiResp) = false then
    .failed "API should be ready but is not"
  else
    match set_admin_init_password env.pwResp with
    | .error _ => .crashed
    | .ok _ =>
        match configure_ntp ntp_servers env.ntpGetResp env.ntpPostResp with
        | .error _ => .crashed
        | .ok _ =>
            match admin_role env.roleGetResp env.rolePostResp with
            | .error _ => .crashed
            | .ok _ => .exited false none (some "STATE CREATE")

/-- `VropsConfig.state_exit_unchanged` (vcenter_vrops_config.py:399-404). -/
def state_exit_unchanged : VOutcome := .exited false none (some "EXIT UNCHANGED")

/-- `VropsConfig.state_delete` (vcenter_vrops_config.py:406-412). -/
def state_delete : VOutcome := .exited false none (some "STATE DELETE")

/-- The module's `state` parameter (`choices=['present', 'absent']`). -/
inductive VState where
  | present : VState
  | absent : VState
deriving DecidableEq, Repr

/-- `VropsConfig.check_state` (vcenter_vrops_config.py:464-466): a stub that
always returns `'absent'`. -/
def check_state : VState := .absent

/-- `VropsConfig.run_state` (vcenter_vrops_config.py:442-462): three
sequential (non-`elif`) `if`s, each overwriting `(changed, result, msg)`;
the initial values are `(False, None, None)`. -/
def run_state (desired : VState) (ntp_servers : List String) (env : VropsEnv) :
    VOutcome :=
  let current := check_state
  let r : VOutcome := .exited false none none
  let r := if desired = current then state_exit_unchanged else r
  let r := if desired = .absent ∧ current = .present then state_delete else r
  if desired = .present ∧ current = .absent then state_create ntp_servers env else r

/-- Which of the three state methods `run_state` executes. -/
inductive VBranch where
  | exit_unchanged : VBranch
  | delete : VBranch
  | create : VBranch
deriving DecidableEq, Repr

/-- The branches of `VropsConfig.run_state` that fire for a given desired
state, in source order (same `if` conditions as `run_state`). -/
def run_state_branches (desired : VState) : List VBranch :=
  let current := check_state
  (if desired = current then [VBranch.exit_unchanged] else []) ++
  (if desired = .absent ∧ current = .present then [VBranch.delete] else []) ++
  (if desired = .present ∧ current = .absent then [VBranch.create] else [])

end VropsConfig

namespace OsProjects

/-- A Keystone project as the module sees it: the attributes
`ks.projects.create(_name, _domain_id, _description)` sets, plus the
service-assigned `id`. -/
structure Project where
  name : String
  domain_id : String
  description : String
  id : String
deriving DecidableEq, Repr

/-- The module's `state` parameter (`choices=['present', 'absent']`). -/
inductive PState where
  | present : PState
  | absent : PState
deriving DecidableEq, Repr

/-- The module parameters `OpenstackProject.__init__` reads for the
reconciliation itself (os_projects.py:100-118); optional string parameters
are `Option String` (`none` when not supplied). -/
structure OsParams where
  new_project_name : String
  project_domain_id : Option String
  project_description : Option String
  state : PState
deriving DecidableEq, Repr

/-- Python truthiness of an optional string parameter: `None` and the empty
string are falsy. -/
def pyTruthyStr : Option String → Bool
  | none => false
  | some s => decide (s ≠ "")

/-- `self.project_domain_id = module.params['project_domain_id'] if
module.params['project_domain_id'] else 'default'` (os_projects.py:112-113). -/
def init_project_domain_id (param : Option String) : String :=
  if pyTruthyStr param then param.getD "default" else "default"

/-- `self.project_description = module.params['project_description'] if
module.params['project_description'] else 'New Project: %s' %
self.project_name` (os_projects.py:114-115). -/
def init_project_description (param : Option String) (project_name : String) :
    String :=
  if pyTruthyStr param then param.getD "" else "New Project: " ++ project_name

/-- `OpenstackProject.check_project_state` (os_projects.py:205-214):
`[p for p in self.ks.projects.list() if p.name == self.project_name][0]`;
the `[0]` raises `IndexError` (caught, meaning `'absent'`) when no project
matches, so the result is the head of the filtered list. -/
def check_project_state (project_name : String) (projects : List Project) :
    Option Project :=
  (projects.filter (fun p => decide (p.name = project_name))).head?

/-- `self.ks.projects.create(_name, _domain_id, _description)` against the
Keystone service holding `projects`; the service assigns `newId` to the
created project. -/
def ks_projects_create (projects : List Project)
    (name domain_id description newId : String) : List Project × Project :=
  let p : Project := ⟨name, domain_id, description, newId⟩
  (projects ++ [p], p)

/-- `self.ks.projects.delete(project)` against the Keystone service:
removes the given project record. -/
def ks_projects_delete (projects : List Project) (project : Project) :
    List Project :=
  projects.filter (fun q => decide (q ≠ project))

/-- A Keystone API call the reconciler can issue. -/
inductive KsCall where
  | list : KsCall
  | create (name domain_id description : String) : KsCall
  | delete (project : Project) : KsCall
deriving DecidableEq, Repr

/-- The values the Keystone service produces that are not functions of the
module's inputs: the id it assigns on create, and `str(delete_result[0])`
of the delete response (os_projects.py:171). -/
structure OsEnv where
  newId : String
  deleteRepr : String
deriving DecidableEq, Repr

/-- The `module.exit_json(changed=changed, result=result,
project_id=self.project_id)` payload (os_projects.py:173). -/
structure ExitReport where
  changed : Bool
  result : Option String
  project_id : Option String
deriving DecidableEq, Repr

/-- Result of one `run_state` run: the Keystone service state afterwards,
the exit payload, and the API calls issued. -/
structure RunOut where
  ks : List Project
  report : ExitReport
  calls : List KsCall
deriving DecidableEq, Repr

/-- `OpenstackProject.run_state` (os_projects.py:150-173) on a Keystone
service holding `ks`, with no API failures (the failing run is modelled by
`os_module_run` below).  `self.project_id` starts as `None` and is set by
`check_project_state` when a project is found and by the create branch. -/
def os_run_state (p : OsParams) (ks : List Project) (env : OsEnv) : RunOut :=
  let domain_id := init_project_domain_id p.project_domain_id
  let description := init_project_description p.project_description p.new_project_name
  match check_project_state p.new_project_name ks with
  | none =>
      -- current_state = 'absent'; self.project_id is still None
      match p.state with
      | .absent => ⟨ks, ⟨false, none, none⟩, [KsCall.list]⟩
      | .present =>
          let (ks2, project) :=
            ks_projects_create ks p.new_project_name domain_id description env.newId
          ⟨ks2, ⟨true, some project.id, some project.id⟩,
            [KsCall.list, KsCall.create p.new_project_name domain_id description]⟩
  | some project =>
      -- current_state = 'present'; self.project_id = project.id
      match p.state with
      | .present => ⟨ks, ⟨false, some project.id, some project.id⟩, [KsCall.list]⟩
      | .absent =>
          ⟨ks_projects_delete ks project,
            ⟨true, some env.deleteRepr, some project.id⟩,
            [KsCall.list, KsCall.delete project]⟩

/-- Outcome of a full module invocation of os_projects.py: a normal
`exit_json`, a `module.fail_json` abort, or an uncaught Python exception. -/
inductive OsOutcome where
  | exited (r : ExitReport)
  | failJson (msg : String)
  | uncaught (msg : String)
deriving DecidableEq, Repr

/-- Whether an outcome is a `module.fail_json` abort. -/
def isFailJson : OsOutcome → Bool
  | .failJson _ => true
  | _ => false

/-- Failure injection for one full module run: for each Keystone operation,
`some e` means the underlying call raises an exception rendered as `e`
(for `projects.list`, an API error — not the `IndexError` that encodes
"no match", which `os_run_state` already covers). -/
structure OsFailEnv where
  authExn   : Option String
  listExn   : Option String
  createExn : Option String
  deleteExn : Option String
  newId : String
  deleteRepr : String
deriving DecidableEq, Repr

/-- A full module invocation (os_projects.py `main` → `__init__` →
`run_state`): `keystone_auth` (os_projects.py:133-148) turns a client
failure into `fail_json('Failed to get client: %s ' % e)`;
`check_project_state` catches only `IndexError`, so an API error raised by
`projects.list()` propagates uncaught; `state_create_project`
(os_projects.py:191-203) and `state_delete_project` (os_projects.py:178-189)
turn failures into `fail_json` with their respective messages. -/
def os_module_run (p : OsParams) (ks : List Project) (env : OsFailEnv) :
    OsOutcome :=
  match env.authExn with
  | some e => .failJson ("Failed to get client: " ++ e ++ " ")
  | none =>
      match env.listExn with
      | some e => .uncaught e
      | none =>
          match check_project_state p.new_project_name ks with
          | none =>
              match p.state with
              | .absent => .exited ⟨false, none, none⟩
              | .present =>
                  match env.createExn with
                  | some e => .failJson ("Failed to create project: " ++ e ++ " ")
                  | none =>
                      let domain_id := init_project_domain_id p.project_domain_id
                      let description :=
                        init_project_description p.project_description p.new_project_name
                      let (_, project) :=
                        ks_projects_create ks p.new_project_name domain_id description env.newId
                      .exited ⟨true, some project.id, some project.id⟩
          | some project =>
              match p.state with
              | .present => .exited ⟨false, some project.id, some project.id⟩
              | .absent =>
                  match env.deleteExn with
                  | some e => .failJson ("Failed to delete Project: " ++ e ++ " ")
                  | none => .exited ⟨true, some env.deleteRepr, some project.id⟩

end OsProjects

namespace VropsConfig

/-- A concrete appliance environment in which every endpoint answers
healthily: API ready, password PUT answered 200, one NTP server `"ntp1"`
configured, role configuration already running. -/
def envAllOk : VropsEnv :=
  { apiResp := some ⟨200, some ()⟩
    pwResp := some ⟨200, none⟩
    ntpGetResp := some ⟨200, some ⟨["ntp1"]⟩⟩
    ntpPostResp := some ⟨200, some ()⟩
    roleGetResp := some ⟨200, some ⟨true⟩⟩
    rolePostResp := some ⟨200, some ()⟩ }

/-- `envAllOk` except that the admin-password PUT hits a connection error. -/
def envPwConnErr : VropsEnv := { envAllOk with pwResp := none }

end VropsConfig

open VropsConfig OsProjects

/-- From `set(xs) == set(ys)`, membership transfers left to right. -/
theorem pySetEq_mem_left {xs ys : List String} (h : pySetEq xs ys = true) :
    ∀ s ∈ xs, s ∈ ys := by
  intro s hs
  unfold pySetEq at h
  rw [Bool.and_eq_true] at h
  have hx := List.all_eq_true.mp h.1 s hs
  simpa using hx

/-- The only `exit_json` payload `state_create` can produce is
`(False, None, "STATE CREATE")`. -/
theorem state_create_exited (ntp : List String) (env : VropsEnv)
    (c : Bool) (r m : Option String)
    (h : state_create ntp env = VOutcome.exited c r m) :
    c = false ∧ r = none ∧ m = some "STATE CREATE" := by
  unfold state_create at h
  by_cases hapi : pyTruthyOptNat (api_state env.apiResp) = false
  · rw [if_pos hapi] at h
    simp at h
  · rw [if_neg hapi] at h
    cases hpw : set_admin_init_password env.pwResp with
    | error e => rw [hpw] at h; simp at h
    | ok v =>
      rw [hpw] at h
      cases hntp : configure_ntp ntp env.ntpGetResp env.ntpPostResp with
      | error e => rw [hntp] at h; simp at h
      | ok v2 =>
        rw [hntp] at h
        cases hrole : admin_role env.roleGetResp env.rolePostResp with
        | error e => rw [hrole] at h; simp at h
        | ok v3 =>
          rw [hrole] at h
          simp only [VOutcome.exited.injEq] at h
          exact ⟨h.1.symm, h.2.1.symm, h.2.2.symm⟩

/-- Claim C1 (code bug): the source inverts the admin-password condition.
`set_admin_init_password` evaluated on a 500 response carrying
`error_message_key = 'security.initial_password_already_set'` returns
`False` (falsy, a failure), while a 500 response with any other error key
returns `True` (truthy, a success) — the opposite of the specified
"tolerate already-set, fail otherwise"; a 200 response returns the truthy
status code 200. -/
theorem claim_C1_admin_password_key_inverted :
    set_admin_init_password
        (some ⟨500, some ⟨"security.initial_password_already_set"⟩⟩)
      = Except.ok (PyVal.vbool false) ∧
    PyVal.truthy (PyVal.vbool false) = false ∧
    set_admin_init_password (some ⟨500, some ⟨"security.some_other_error"⟩⟩)
      = Except.ok (PyVal.vbool true) ∧
    PyVal.truthy (PyVal.vbool true) = true ∧
    set_admin_init_password (some ⟨200, none⟩) = Except.ok (PyVal.vint 200) ∧
    PyVal.truthy (PyVal.vint 200) = true := by
  refine ⟨rfl, rfl, rfl, rfl, rfl, rfl⟩

/-- Claim C2 (counterexample): with desired list `["a"]` and current list
`["b"]` the computed update list is `["a"]`, yet `"b"` belongs to the
symmetric difference of the two sets — so the update list is not the
symmetric difference. -/
theorem claim_C2_counterexample :
    _update_ntp_servers ["a"] ["b"] = ["a"] ∧
    "b" ∈ symmDiff (["a"] : List String).toFinset (["b"] : List String).toFinset ∧
    "b" ∉ _update_ntp_servers ["a"] ["b"] := by
  refine ⟨by decide, ?_, by decide⟩
  simp [symmDiff]

/-- Claim C2 (amended): for every desired list `D` and current list `C`,
the update list computed by `_update_ntp_servers` is the list of desired
servers not present in the current list (the set difference `D \ C`, in
desired order) — not the symmetric difference. -/
theorem claim_C2_amended_update_is_set_difference (D C : List String) :
    _update_ntp_servers D C = D.filter (fun s => decide (s ∉ C)) := by
  unfold _update_ntp_servers
  split
  next h =>
    symm
    rw [List.filter_eq_nil_iff]
    intro a ha
    simp only [decide_eq_true_eq, Decidable.not_not]
    exact pySetEq_mem_left h a ha
  next h =>
    apply List.filter_congr
    intro a ha
    simp [common_servers, List.mem_filter, ha]

/-- Claim C3 (counterexample): with desired and current lists both empty —
two lists carrying the same set of addresses — `ntp_state` takes the
"no current servers" early return with a `False` state, so `configure_ntp`
does call `set_ntp` (with the empty list): an API write occurs. -/
theorem claim_C3_counterexample :
    pySetEq [] [] = true ∧
    configure_ntp_write [] [] = some [] ∧
    configure_ntp_write [] [] ≠ none := by
  refine ⟨by decide, by decide, by decide⟩

/-- Claim C3 (amended): with desired `["ntp1","ntp2"]` and current
`["ntp1"]` the update list is `["ntp2"]`; and for every desired and current
list carrying the same set of addresses, in any order, with the current
list non-empty, the update list is empty and `configure_ntp` performs no
API write (`set_ntp` is not called).  (When both lists are empty the code
still posts the empty list — the counterexample above.) -/
theorem claim_C3_amended_ntp_reconciliation (D C : List String)
    (hC : C ≠ []) (h : pySetEq D C = true) :
    _update_ntp_servers ["ntp1", "ntp2"] ["ntp1"] = ["ntp2"] ∧
    _update_ntp_servers D C = [] ∧
    configure_ntp_write D C = none := by
  have hupd : _update_ntp_servers D C = [] := by
    unfold _update_ntp_servers
    rw [if_pos h]
  have hcore : ntp_state_core D C = (true, []) := by
    unfold ntp_state_core
    rw [if_neg hC]
    simp [hupd]
  refine ⟨by decide, hupd, ?_⟩
  unfold configure_ntp_write
  rw [hcore]
  rfl

/-- Claim C3 witness: the amended statement applied at desired `["a"]`,
current `["a"]`. -/
theorem claim_C3_amended_ntp_reconciliation_witness :
    _update_ntp_servers ["ntp1", "ntp2"] ["ntp1"] = ["ntp2"] ∧
    _update_ntp_servers ["a"] ["a"] = [] ∧
    configure_ntp_write ["a"] ["a"] = none :=
  claim_C3_amended_ntp_reconciliation ["a"] ["a"] (by decide) (by decide)

/-- Claim C4: `check_state` always returns `'absent'`; hence with desired
state `'absent'` `run_state` exits unchanged and the `state_delete` branch
never fires, and with desired state `'present'` the `state_create`
bootstrap sequence always runs. -/
theorem claim_C4_check_state_stub :
    check_state = VState.absent ∧
    run_state_branches VState.absent = [VBranch.exit_unchanged] ∧
    run_state_branches VState.present = [VBranch.create] ∧
    VBranch.delete ∉ run_state_branches VState.absent ∧
    VBranch.delete ∉ run_state_branches VState.present ∧
    (∀ ntp env, run_state VState.absent ntp env = state_exit_unchanged) ∧
    (∀ ntp env, run_state VState.present ntp env = state_create ntp env) := by
  refine ⟨rfl, by decide, by decide, by decide, by decide, ?_, ?_⟩
  · intro ntp env; rfl
  · intro ntp env; rfl

/-- Claim C7 (code bug): a completed response whose status code is outside
the whitelist is returned by `do_request` exactly like an accepted one —
the whitelist lives in dead `except` clauses — and a connection error
during `set_admin_init_password` does not abort the bootstrap: the run
continues and exits normally with `changed=False`.  Only the connection
error's `(None, None)` return matches the docstring. -/
theorem claim_C7_transport_failures_not_enforced :
    do_request [200] (some (⟨503, some ()⟩ : PyResponse Unit)) = (some 503, some ()) ∧
    do_request [200] (none : Transport Unit) = ((none : Option Nat), (none : Option Unit)) ∧
    run_state VState.present ["ntp1"] envPwConnErr
      = VOutcome.exited false none (some "STATE CREATE") := by
  refine ⟨rfl, rfl, by decide⟩

/-- Claim C9: every vROPs `run_state` invocation that reaches `exit_json`
(does not `fail_json` and does not crash) reports `changed=False` and
`result=None`, whatever remote mutations the bootstrap sequence performed —
`state_create` never reassigns `changed` or `result`. -/
theorem claim_C9_run_state_never_changed (desired : VState) (ntp : List String)
    (env : VropsEnv) (c : Bool) (r m : Option String)
    (h : run_state desired ntp env = VOutcome.exited c r m) :
    c = false ∧ r = none := by
  cases desired with
  | absent =>
      have h' : state_exit_unchanged = VOutcome.exited c r m := h
      simp only [state_exit_unchanged, VOutcome.exited.injEq] at h'
      exact ⟨h'.1.symm, h'.2.1.symm⟩
  | present =>
      have h' : state_create ntp env = VOutcome.exited c r m := h
      obtain ⟨h1, h2, _⟩ := state_create_exited ntp env c r m h'
      exact ⟨h1, h2⟩

/-- Claim C9 witness: a healthy appliance, desired state `present`:
the run performs the whole bootstrap and still exits `(False, None)`. -/
theorem claim_C9_run_state_never_changed_witness :
    run_state VState.present ["ntp1"] envAllOk
      = VOutcome.exited false none (some "STATE CREATE") ∧
    (false = false ∧ (none : Option String) = none) :=
  ⟨by decide, claim_C9_run_state_never_changed VState.present ["ntp1"] envAllOk
      false none (some "STATE CREATE") (by decide)⟩

/-- Claim C5: with no existing project of the requested name and
state=present, the run creates the project and exits `changed=True` with
`result` the created project's identifier (non-empty when the service
assigns non-empty ids); a second run against the resulting service state
exits `changed=False`, issues no create call, and leaves the state as is. -/
theorem claim_C5_create_then_idempotent (p : OsParams) (ks : List Project)
    (env env2 : OsEnv)
    (hpresent : p.state = PState.present)
    (habsent : check_project_state p.new_project_name ks = none)
    (hid : env.newId ≠ "") :
    (os_run_state p ks env).report.changed = true ∧
    (os_run_state p ks env).report.result = some env.newId ∧
    env.newId ≠ "" ∧
    (os_run_state p (os_run_state p ks env).ks env2).report.changed = false ∧
    (∀ n d de, KsCall.create n d de ∉ (os_run_state p (os_run_state p ks env).ks env2).calls) ∧
    (os_run_state p (os_run_state p ks env).ks env2).ks = (os_run_state p ks env).ks := by
  have hfilnil : ks.filter (fun q => decide (q.name = p.new_project_name)) = [] := by
    unfold check_project_state at habsent
    cases hf : ks.filter (fun q => decide (q.name = p.new_project_name)) with
    | nil => rfl
    | cons a t => rw [hf] at habsent; simp at habsent
  have h1 : os_run_state p ks env =
      ⟨ks ++ [⟨p.new_project_name, init_project_domain_id p.project_domain_id,
          init_project_description p.project_description p.new_project_name, env.newId⟩],
        ⟨true, some env.newId, some env.newId⟩,
        [KsCall.list, KsCall.create p.new_project_name
            (init_project_domain_id p.project_domain_id)
            (init_project_description p.project_description p.new_project_name)]⟩ := by
    unfold os_run_state
    rw [habsent, hpresent]
    rfl
  have hfind : check_project_state p.new_project_name
      (ks ++ [⟨p.new_project_name, init_project_domain_id p.project_domain_id,
          init_project_description p.project_description p.new_project_name, env.newId⟩])
      = some ⟨p.new_project_name, init_project_domain_id p.project_domain_id,
          init_project_description p.project_description p.new_project_name, env.newId⟩ := by
    unfold check_project_state
    rw [List.filter_append, hfilnil]
    simp
  have h2 : os_run_state p (os_run_state p ks env).ks env2 =
      ⟨(os_run_state p ks env).ks,
        ⟨false, some env.newId, some env.newId⟩, [KsCall.list]⟩ := by
    rw [h1]
    unfold os_run_state
    rw [hfind, hpresent]
  rw [h1] at h2 ⊢
  rw [h2]
  refine ⟨rfl, rfl, hid, rfl, ?_, rfl⟩
  intro n d de
  simp

/-- Claim C5 witness: empty service, create `"demo"`, then re-run. -/
theorem claim_C5_create_then_idempotent_witness :
    (os_run_state ⟨"demo", none, none, PState.present⟩ [] ⟨"id1", "del"⟩).report.changed = true :=
  (claim_C5_create_then_idempotent ⟨"demo", none, none, PState.present⟩ []
      ⟨"id1", "del"⟩ ⟨"id2", "del"⟩ rfl (by decide) (by decide)).1

/-- Claim C6: with a project of the requested name present (and names
unique, as Keystone guarantees within a domain) and state=absent, the run
deletes it and exits `changed=True`; a second run exits `changed=False`,
issues no delete call, and leaves the service state as is. -/
theorem claim_C6_delete_then_idempotent (p : OsParams) (ks : List Project)
    (env env2 : OsEnv) (proj : Project)
    (habsentstate : p.state = PState.absent)
    (hfound : check_project_state p.new_project_name ks = some proj)
    (huniq : (ks.filter (fun q => decide (q.name = p.new_project_name))).length ≤ 1) :
    (os_run_state p ks env).report.changed = true ∧
    (∀ q ∈ (os_run_state p ks env).ks, q.name ≠ p.new_project_name) ∧
    (os_run_state p (os_run_state p ks env).ks env2).report.changed = false ∧
    (∀ q, KsCall.delete q ∉ (os_run_state p (os_run_state p ks env).ks env2).calls) ∧
    (os_run_state p (os_run_state p ks env).ks env2).ks = (os_run_state p ks env).ks := by
  have hfil : ks.filter (fun q => decide (q.name = p.new_project_name)) = [proj] := by
    have hh := hfound
    unfold check_project_state at hh
    cases hf : ks.filter (fun q => decide (q.name = p.new_project_name)) with
    | nil => rw [hf] at hh; simp at hh
    | cons a t =>
        rw [hf] at hh
        have ha : a = proj := by simpa using hh
        rw [hf] at huniq
        have ht : t = [] := by
          simp only [List.length_cons] at huniq
          have : t.length = 0 := by omega
          simpa [List.length_eq_zero] using this
        rw [ha, ht]
  have hmem : ∀ q ∈ ks.filter (fun q => decide (q ≠ proj)),
      q.name ≠ p.new_project_name := by
    intro q hq hname
    rw [List.mem_filter] at hq
    obtain ⟨hqks, hqne⟩ := hq
    have hq2 : q ∈ ks.filter (fun q => decide (q.name = p.new_project_name)) :=
      List.mem_filter.mpr ⟨hqks, by simpa using hname⟩
    rw [hfil] at hq2
    simp at hq2
    rw [hq2] at hqne
    simp at hqne
  have hnone : check_project_state p.new_project_name
      (ks.filter (fun q => decide (q ≠ proj))) = none := by
    have hnil : (ks.filter (fun q => decide (q ≠ proj))).filter
        (fun q => decide (q.name = p.new_project_name)) = [] := by
      rw [List.filter_eq_nil_iff]
      intro a ha
      simp only [decide_eq_true_eq]
      exact hmem a ha
    unfold check_project_state
    rw [hnil]
    rfl
  have h1 : os_run_state p ks env =
      ⟨ks.filter (fun q => decide (q ≠ proj)),
        ⟨true, some env.deleteRepr, some proj.id⟩,
        [KsCall.list, KsCall.delete proj]⟩ := by
    unfold os_run_state
    rw [hfound, habsentstate]
    rfl
  have h2 : os_run_state p (os_run_state p ks env).ks env2 =
      ⟨(os_run_state p ks env).ks, ⟨false, none, none⟩, [KsCall.list]⟩ := by
    rw [h1]
    unfold os_run_state
    rw [hnone, habsentstate]
  rw [h1] at h2 ⊢
  rw [h2]
  refine ⟨rfl, hmem, rfl, ?_, rfl⟩
  intro q
  simp

/-- Claim C6 witness: one project `"demo"` present, delete it. -/
theorem claim_C6_delete_then_idempotent_witness :
    (os_run_state ⟨"demo", none, none, PState.absent⟩
        [⟨"demo", "default", "d", "id0"⟩] ⟨"id1", "del"⟩).report.changed = true :=
  (claim_C6_delete_then_idempotent ⟨"demo", none, none, PState.absent⟩
      [⟨"demo", "default", "d", "id0"⟩] ⟨"id1", "del"⟩ ⟨"id2", "del"⟩
      ⟨"demo", "default", "d", "id0"⟩ rfl (by decide) (by decide)).1

/-- Claim C8 (counterexample): `check_project_state` catches only
`IndexError`, so an API error raised by `projects.list()` propagates as an
uncaught exception — the run aborts, but not through the module-level
`fail_json` failure path the claim asserts for every Keystone call. -/
theorem claim_C8_counterexample :
    os_module_run ⟨"proj", none, none, PState.present⟩ []
        ⟨none, some "boom", none, none, "id1", "del"⟩
      = OsOutcome.uncaught "boom" ∧
    isFailJson (os_module_run ⟨"proj", none, none, PState.present⟩ []
        ⟨none, some "boom", none, none, "id1", "del"⟩) = false := by
  refine ⟨by decide, by decide⟩

/-- Claim C8 (amended): failures of obtaining the client, creating a
project, or deleting a project abort the run with a module-level
`fail_json` surfacing the underlying error message, with no retry; a
failure while listing projects (other than the absent-project
`IndexError`) also aborts the run, but as an uncaught exception rather
than a module-level failure. -/
theorem claim_C8_amended_failures_surface (p : OsParams) (ks : List Project)
    (env : OsFailEnv) (proj : Project) (e : String) :
    (env.authExn = some e →
      os_module_run p ks env
        = OsOutcome.failJson ("Failed to get client: " ++ e ++ " ")) ∧
    (env.authExn = none → env.listExn = some e →
      os_module_run p ks env = OsOutcome.uncaught e ∧
      isFailJson (os_module_run p ks env) = false) ∧
    (env.authExn = none → env.listExn = none →
      check_project_state p.new_project_name ks = none →
      p.state = PState.present → env.createExn = some e →
      os_module_run p ks env
        = OsOutcome.failJson ("Failed to create project: " ++ e ++ " ")) ∧
    (env.authExn = none → env.listExn = none →
      check_project_state p.new_project_name ks = some proj →
      p.state = PState.absent → env.deleteExn = some e →
      os_module_run p ks env
        = OsOutcome.failJson ("Failed to delete Project: " ++ e ++ " ")) := by
  refine ⟨?_, ?_, ?_, ?_⟩
  · intro h1
    unfold os_module_run
    rw [h1]
  · intro h1 h2
    unfold os_module_run isFailJson
    rw [h1, h2]
    exact ⟨rfl, rfl⟩
  · intro h1 h2 h3 h4 h5
    unfold os_module_run
    rw [h1, h2, h3, h4, h5]
  · intro h1 h2 h3 h4 h5
    unfold os_module_run
    rw [h1, h2, h3, h4, h5]

/-- Claim C8 witness: the amended statement applied at concrete failing
environments for each of the four Keystone operations. -/
theorem claim_C8_amended_failures_surface_witness :
    (os_module_run ⟨"p", none, none, PState.present⟩ []
        ⟨some "x", none, none, none, "i", "d"⟩
      = OsOutcome.failJson ("Failed to get client: " ++ "x" ++ " ")) ∧
    (os_module_run ⟨"p", none, none, PState.present⟩ []
        ⟨none, some "x", none, none, "i", "d"⟩ = OsOutcome.uncaught "x") ∧
    (os_module_run ⟨"p", none, none, PState.present⟩ []
        ⟨none, none, some "x", none, "i", "d"⟩
      = OsOutcome.failJson ("Failed to create project: " ++ "x" ++ " ")) ∧
    (os_module_run ⟨"p", none, none, PState.absent⟩ [⟨"p", "dm", "ds", "i0"⟩]
        ⟨none, none, none, some "x", "i", "d"⟩
      = OsOutcome.failJson ("Failed to delete Project: " ++ "x" ++ " ")) :=
  ⟨(claim_C8_amended_failures_surface ⟨"p", none, none, PState.present⟩ []
      ⟨some "x", none, none, none, "i", "d"⟩ ⟨"p", "dm", "ds", "i0"⟩ "x").1 rfl,
   ((claim_C8_amended_failures_surface ⟨"p", none, none, PState.present⟩ []
      ⟨none, some "x", none, none, "i", "d"⟩ ⟨"p", "dm", "ds", "i0"⟩ "x").2.1 rfl rfl).1,
   (claim_C8_amended_failures_surface ⟨"p", none, none, PState.present⟩ []
      ⟨none, none, some "x", none, "i", "d"⟩ ⟨"p", "dm", "ds", "i0"⟩ "x").2.2.1
      rfl rfl (by decide) rfl rfl,
   (claim_C8_amended_failures_surface ⟨"p", none, none, PState.absent⟩ [⟨"p", "dm", "ds", "i0"⟩]
      ⟨none, none, none, some "x", "i", "d"⟩ ⟨"p", "dm", "ds", "i0"⟩ "x").2.2.2
      rfl rfl (by decide) rfl rfl⟩

/-- Claim C10 (counterexample): a *supplied* but empty `project_domain_id`
or `project_description` is falsy in Python, so the defaults are used, not
the supplied value unchanged: the created project carries domain
`'default'` and the generated description. -/
theorem claim_C10_counterexample :
    (os_run_state ⟨"proj", some "", some "", PState.present⟩ [] ⟨"id1", "del"⟩).ks
      = [⟨"proj", "default", "New Project: proj", "id1"⟩] ∧
    init_project_domain_id (some "") = "default" ∧
    init_project_domain_id (some "") ≠ "" ∧
    init_project_description (some "") "proj" ≠ "" := by
  refine ⟨by decide, by decide, by decide, by decide⟩

/-- Claim C10 (amended): an unsupplied — or supplied but empty —
`project_domain_id` yields domain id `'default'`, an unsupplied or empty
`project_description` yields `'New Project: <new_project_name>'`, and the
project is created with exactly the derived domain and description;
supplied non-empty values are used unchanged. -/
theorem claim_C10_amended_defaulting (name : String) (dom desc : Option String)
    (ks : List Project) (env : OsEnv)
    (habsent : check_project_state name ks = none) :
    (os_run_state ⟨name, dom, desc, PState.present⟩ ks env).ks
      = ks ++ [⟨name, init_project_domain_id dom,
                init_project_description desc name, env.newId⟩] ∧
    init_project_domain_id none = "default" ∧
    init_project_description none name = "New Project: " ++ name ∧
    init_project_domain_id (some "") = "default" ∧
    init_project_description (some "") name = "New Project: " ++ name ∧
    (∀ s : String, s ≠ "" → init_project_domain_id (some s) = s) ∧
    (∀ s : String, s ≠ "" → init_project_description (some s) name = s) := by
  refine ⟨?_, rfl, rfl, rfl, rfl, ?_, ?_⟩
  · unfold os_run_state
    rw [habsent]
    rfl
  · intro s hs
    unfold init_project_domain_id pyTruthyStr
    rw [if_pos (by simpa using hs)]
    rfl
  · intro s hs
    unfold init_project_description pyTruthyStr
    rw [if_pos (by simpa using hs)]
    rfl

/-- Claim C10 witness: the amended statement applied with no supplied
optional parameters on an empty service. -/
theorem claim_C10_amended_defaulting_witness :
    (os_run_state ⟨"proj", none, none, PState.present⟩ [] ⟨"id1", "del"⟩).ks
      = [] ++ [⟨"proj", init_project_domain_id none,
                init_project_description none "proj", "id1"⟩] :=
  (claim_C10_amended_defaulting "proj" none none [] ⟨"id1", "del"⟩ (by decide)).1
